import Mathlib

/-!
Verification of the auth/session slice of the node-ts-drizzle starter.

The development shallowly embeds:
* the token utility (`src/hooks/useToken.ts`): generate / extract / verify,
  over an idealized model of the `jsonwebtoken` library;
* the database tables `user` and `userSession` (drizzle schema) as lists of rows;
* `SessionService` (`src/app/service/session.service.ts`);
* `AuthService` (`src/app/service/auth.service.ts`);
* the `authorization` middleware (`src/middleware/authorization.ts`) and the
  `/logout` and `/user-registration` routes (`src/app/controller/auth.controller.ts`).

Time is a natural number of seconds passed explicitly to every operation that
reads the clock.
-/

/-- The expiry strings accepted by the token utility
(`ExpiresType = "1h" | "6h" | "12h" | "1d" | ... | "7d"` in `hooks/useToken.ts`). -/
inductive ExpiresType
  | h1 | h6 | h12 | d1 | d2 | d3 | d4 | d5 | d6 | d7
deriving DecidableEq

/-- `config/ms.ts`: converts an expiry string to milliseconds
(`numericValue * TIME_UNITS[type]`). Restricted to the strings of `ExpiresType`,
which all parse successfully. -/
def ms : ExpiresType → Nat
  | .h1 => 1 * 3600000
  | .h6 => 6 * 3600000
  | .h12 => 12 * 3600000
  | .d1 => 1 * 86400000
  | .d2 => 2 * 86400000
  | .d3 => 3 * 86400000
  | .d4 => 4 * 86400000
  | .d5 => 5 * 86400000
  | .d6 => 6 * 86400000
  | .d7 => 7 * 86400000

/-- Token strings, treated as plain byte strings. A JWT produced by `jwt.sign` is modelled symbolically
as its payload, signing key, issued-at, expiry and not-before instants (seconds);
every other string is `garbage`. Byte equality of token strings is the derived
decidable equality. -/
inductive TokenStr
  | signed (payload : String) (key : String) (iat : Nat) (exp : Nat) (nbf : Nat)
  | garbage (s : String)
deriving DecidableEq

/-- JS truthiness of a token string: the empty string is falsy. -/
def TokenStr.isEmptyStr : TokenStr → Bool
  | .garbage s => s.isEmpty
  | .signed _ _ _ _ _ => false

/-- Outcome of a call to the `jsonwebtoken` library `jwt.verify`:
success with the decoded payload, or one of the error classes the library
throws (`TokenExpiredError`, `JsonWebTokenError`, `NotBeforeError`), or any
other thrown error. -/
inductive JwtOutcome
  | ok (payload : String)
  | errExpired
  | errJwt
  | errNotBefore
  | errOther
deriving DecidableEq

/-- Idealized model of `jwt.verify(token, secretKey)` at clock instant `now`:
a non-JWT string is malformed (`JsonWebTokenError`); a signed token verifies
only under the key it was signed with (`invalid signature` otherwise), must not
be used before `nbf` and is expired once `now` reaches `exp`. -/
def jwtVerify (token : TokenStr) (secretKey : String) (now : Nat) : JwtOutcome :=
  match token with
  | .garbage _ => .errJwt
  | .signed payload key _iat exp nbf =>
    if key = secretKey then
      if now < nbf then .errNotBefore
      else if exp ≤ now then .errExpired
      else .ok payload
    else .errJwt

/-- The typed message of a `useToken.verify` result; each constructor stands for
one branch of the TS function (the TS code renders these as message strings). -/
inductive VerifyMsg
  | unauthorized
  | verified
  | expired
  | jwtError
  | notBefore
  | unknownErr
deriving DecidableEq

/-- `DtoVerifyToken`: the result object of `useToken.verify`, with `data` either
the decoded claim payload or null. -/
structure DtoVerifyToken where
  data : Option String
  message : VerifyMsg
deriving DecidableEq

/-- The TS expression `tokenValidation !== null` used in
`AuthService.validateResetToken`: `useToken.verify` returns an object (possibly
with `data: null`) or `undefined`, never the JS value `null`, so this strict
comparison holds for every verification result, failed ones included. -/
def DtoVerifyToken.strictNeNull (_r : DtoVerifyToken) : Bool := true

/-- `DtoGenerateToken`: result of `useToken.generate`. -/
structure DtoGenerateToken where
  token : TokenStr
  expiresIn : Nat

/-- `useToken.generate` (`hooks/useToken.ts`): `expiresIn` is `ms(expires)/1000`
seconds and the token is the payload signed with `secretKey` by `jwt.sign`,
expiring `expiresIn` seconds after issuance (no not-before option is passed). -/
def useToken.generate (value : String) (secretKey : String) (expires : ExpiresType)
    (now : Nat) : DtoGenerateToken :=
  let tokenExpires := ms expires
  let expiresIn := tokenExpires / 1000
  { token := .signed value secretKey now (now + expiresIn) 0, expiresIn := expiresIn }

/-- The shape of the `Authorization` header after `split(" ")`, as the two
functions that read it distinguish it: exactly two parts (scheme and a second
part, the candidate token), a single part (index 1 is undefined), or three or
more parts (index 1 exists but the two-part check of `extract` fails). -/
inductive HeaderShape
  | twoParts (scheme : String) (second : TokenStr)
  | onePart (word : String)
  | manyParts (scheme : String) (second : TokenStr)
deriving DecidableEq

/-- The slices of a request that token handling reads: `req.query.token`,
`req.cookies.token` and `req.headers.authorization`. -/
structure Req where
  queryToken : Option TokenStr
  cookieToken : Option TokenStr
  authHeader : Option HeaderShape

/-- JS truthiness of an optional token source: absent or the empty string is
falsy. -/
def tokTruthy : Option TokenStr → Bool
  | none => false
  | some t => !t.isEmptyStr

/-- The header branch of `useToken.extract` (`hooks/useToken.ts` lines 92-103):
the value is returned only when the split has exactly two parts and the first
is one of `Bearer`, `JWT`, `Token`. -/
def extractFromHeader : Option HeaderShape → Option TokenStr
  | some (.twoParts scheme second) =>
    if scheme = "Bearer" ∨ scheme = "JWT" ∨ scheme = "Token" then some second else none
  | some (.onePart _) => none
  | some (.manyParts _ _) => none
  | none => none

/-- `useToken.extract` (`hooks/useToken.ts`): the query parameter is consulted
first, then the cookie, then the `Authorization` header. -/
def useToken.extract (rq : Req) : Option TokenStr :=
  if tokTruthy rq.queryToken then rq.queryToken
  else if tokTruthy rq.cookieToken then rq.cookieToken
  else extractFromHeader rq.authHeader

/-- `useToken.verify` (`hooks/useToken.ts`): an empty token short-circuits to
the `unauthorized` result; otherwise `jwt.verify` runs and each error class the
library can throw is caught and mapped to a `data: null` result with a typed
message; a successful verification returns the decoded payload. -/
def useToken.verify (token : TokenStr) (secretKey : String) (now : Nat) : DtoVerifyToken :=
  if token.isEmptyStr then { data := none, message := .unauthorized }
  else
    match jwtVerify token secretKey now with
    | .ok payload => { data := some payload, message := .verified }
    | .errExpired => { data := none, message := .expired }
    | .errJwt => { data := none, message := .jwtError }
    | .errNotBefore => { data := none, message := .notBefore }
    | .errOther => { data := none, message := .unknownErr }

/-- A row of the `user` table (`db/schema`, drizzle `userTable`): serial id,
name, unique email, nullable password hash, nullable password/reset token,
active, email-verified and soft-delete flags. Timestamps are omitted: no claim
reads them. -/
structure UserRow where
  id : Nat
  name : String
  email : String
  password : Option String
  passwordToken : Option TokenStr
  isActive : Bool
  isEmailVerified : Bool
  isDeleted : Bool
deriving DecidableEq

/-- A row of the `userSession` table (`db/schema`, drizzle `userSessionTable`):
serial id, user id (FK), token. Timestamps are omitted: no claim reads them. -/
structure SessionRow where
  id : Nat
  userId : Nat
  token : TokenStr
deriving DecidableEq

/-- The database state: the two tables the auth slice touches, each as the list
of its rows in insertion order. -/
structure Database where
  users : List UserRow
  sessions : List SessionRow
deriving DecidableEq

/-- `config/env.ts` `JWT_SECRET_ACCESS_TOKEN`: the configured signing secret,
read once at startup. Modelled as a fixed arbitrary string; what matters to the
claims is that the middleware and the service read the same value. -/
def env.JWT_SECRET_ACCESS_TOKEN : String := "jwt-secret-access-token"

/-- Modelled from the spec: `config/hashing` is not under `src/`. Spec 4.2:
`hash(plaintext)` is a one-way hash; modelled as an injective tagging of the
plaintext. -/
def hashing.hash (plaintext : String) : String := "hashed:" ++ plaintext

/-- Modelled from the spec: `config/hashing` is not under `src/`. Spec 4.2:
`verify(hash, plaintext)` is a boolean match that is false on mismatch and
never throws. -/
def hashing.verify (hashed plaintext : String) : Bool :=
  hashed == hashing.hash plaintext

/-- Modelled from the spec: `core/modules/response/ErrorResponse` is not under
`src/`. Constructors follow the spec error kinds (section 7) and the
constructor names used at the call sites in `middleware/authorization.ts`
(`NotFound`, `BadRequest`, `InternalServer`); `Forbidden` is the kind named by
spec section 4.5; `UniqueViolation` models the Postgres unique-constraint error
that the drizzle error middleware maps to 409; `ValidationFailed` models a
thrown zod parse error. -/
inductive ErrResp
  | NotFound (msg : String)
  | BadRequest (msg : String)
  | Forbidden (msg : String)
  | InternalServer (msg : String)
  | UniqueViolation (msg : String)
  | ValidationFailed (msg : String)
deriving DecidableEq

deriving instance DecidableEq for Except

/-- Whether an `Except` result is a `BadRequest` error. -/
def exceptIsBadRequest {α : Type} : Except ErrResp α → Bool
  | .error (.BadRequest _) => true
  | _ => false

/-- Whether an `Except` result is a `Forbidden` error. -/
def exceptIsForbidden {α : Type} : Except ErrResp α → Bool
  | .error (.Forbidden _) => true
  | _ => false

/-- `SessionService.getByToken`: `select … where token = token limit 1`,
returning the first matching row or null. -/
def SessionService.getByToken (sessions : List SessionRow) (token : TokenStr) :
    Option SessionRow :=
  (sessions.filter (fun s => s.token == token)).head?

/-- The serial primary key of a fresh `userSession` row, modelled as one more
than the largest id in the table. -/
def nextSessionId (sessions : List SessionRow) : Nat :=
  sessions.foldr (fun s acc => max s.id acc) 0 + 1

/-- `SessionService.createOrUpdateSession`: find a session by user id
(`limit 1`); if one exists, `update … set {userId, token} where userId = userId`;
else insert a new row. Returns the resulting table state. -/
def SessionService.createOrUpdateSession (sessions : List SessionRow)
    (userId : Nat) (token : TokenStr) : List SessionRow :=
  match (sessions.filter (fun s => s.userId == userId)).head? with
  | some _ =>
    sessions.map (fun s =>
      if s.userId == userId then { s with userId := userId, token := token } else s)
  | none =>
    sessions ++ [{ id := nextSessionId sessions, userId := userId, token := token }]

/-- `SessionService.deleteSession`: `delete … where token = token`. The TS
method returns the deleted rows (`returning()`), which every caller ignores;
the model returns the resulting table state. -/
def SessionService.deleteSession (sessions : List SessionRow) (token : TokenStr) :
    List SessionRow :=
  sessions.filter (fun s => !(s.token == token))

/-- The serial primary key of a fresh `user` row, modelled as one more than the
largest id in the table. -/
def nextUserId (users : List UserRow) : Nat :=
  users.foldr (fun u acc => max u.id acc) 0 + 1

/-- The `user_email_unique` constraint (`db/schema`: `email … unique()`): an
insert whose email equals the email of any existing row — soft-deleted or not —
is rejected by Postgres with a unique violation; otherwise the row is appended. -/
def dbInsertUser (db : Database) (row : UserRow) : Except ErrResp Database :=
  if db.users.any (fun u => u.email == row.email) then
    .error (.UniqueViolation "user_email_unique")
  else
    .ok { db with users := db.users ++ [row] }

/-- `update userTable set passwordToken where email = email`. -/
def dbSetPasswordToken (db : Database) (email : String) (tok : Option TokenStr) :
    Database :=
  { db with users := db.users.map (fun u =>
      if u.email == email then { u with passwordToken := tok } else u) }

/-- `app/schema/auth.schema.ts` `loginSchema`: zod email format (modelled as
containing a `@`) with min length 2, and password of min length 6. The
`.refine` call in the source discards its result, so the
password-contains-email refinement is not part of the parsed schema. -/
def loginSchemaOk (email password : String) : Bool :=
  (email.data.any (fun c => c == '@') && decide (2 ≤ email.length)) &&
  decide (6 ≤ password.length)

/-- The serialized token claim `{email, userId, role}` built by
`AuthService.generateAuthToken` (JSON serialization modelled as a canonical
string; `user.email ?? ""` is total on the model where email is not null). -/
def authTokenPayload (u : UserRow) : String :=
  "email=" ++ u.email ++ ";userId=" ++ toString u.id ++ ";role=user"

/-- The success payload of `AuthService.userLogin`. -/
structure LoginOk where
  token : TokenStr
  user : String
  name : String
  userId : Nat
  expiresIn : Nat
deriving DecidableEq

/-- `AuthService.userLogin` (`src/app/service/auth.service.ts`): parse the
login schema, select the user by email (`limit 1`, no soft-delete filter),
throw `NotFound` if absent, `BadRequest` if inactive, verify the password hash
(`user.password ?? ""`), throw `BadRequest` on mismatch, else issue a 1-day
token via `generateAuthToken`. -/
def AuthService.userLogin (db : Database) (now : Nat) (email password : String) :
    Except ErrResp LoginOk :=
  if loginSchemaOk email password then
    match (db.users.filter (fun u => u.email == email)).head? with
    | none => .error (.NotFound "Account not found or not registered")
    | some user =>
      if user.isActive then
        if hashing.verify (user.password.getD "") password then
          let gen := useToken.generate (authTokenPayload user)
            env.JWT_SECRET_ACCESS_TOKEN .d1 now
          .ok { token := gen.token, user := user.email, name := user.name,
                userId := user.id, expiresIn := gen.expiresIn }
        else .error (.BadRequest "Invalid username or password")
      else .error (.BadRequest "Your account is not active")
  else .error (.ValidationFailed "loginSchema")

/-- `AuthService.validateResetToken` (`src/middleware/authorization.ts` lines
165-189): select the user by email; return false when the user is absent, the
stored `passwordToken` is null or falsy, or it does not byte-match the provided
token; otherwise call `useToken.verify` and return `tokenValidation !== null`. -/
def AuthService.validateResetToken (db : Database) (now : Nat) (email : String)
    (token : TokenStr) : Bool :=
  match (db.users.filter (fun u => u.email == email)).head? with
  | none => false
  | some user =>
    match user.passwordToken with
    | none => false
    | some stored =>
      if stored.isEmptyStr then false
      else if stored != token then false
      else
        let tokenValidation := useToken.verify token env.JWT_SECRET_ACCESS_TOKEN now
        tokenValidation.strictNeNull

/-- The success payload of `AuthService.resetPassword`. -/
structure ResetOk where
  message : String
  email : String
deriving DecidableEq

/-- `AuthService.resetPassword` (`src/middleware/authorization.ts` lines
208-239): validate the reset token, throw `BadRequest "Invalid or expired
token"` when invalid (no update); otherwise hash the new password and
`update … set {password, isEmailVerified: true, passwordToken: null} where
email = email`, then send the confirmation email (an external collaborator,
modelled as succeeding). -/
def AuthService.resetPassword (db : Database) (now : Nat) (email password : String)
    (token : TokenStr) : Except ErrResp (Database × ResetOk) :=
  let isValidToken := AuthService.validateResetToken db now email token
  if isValidToken then
    let hashedPassword := hashing.hash password
    let users2 := db.users.map (fun u =>
      if u.email == email then
        { u with password := some hashedPassword, isEmailVerified := true,
                 passwordToken := none }
      else u)
    .ok ({ db with users := users2 },
         { message := "Password reset successfully", email := email })
  else
    .error (.BadRequest "Invalid or expired token")

/-- `AuthService.getUserByEmail`: `findFirst where email = email and
isDeleted = false`. -/
def AuthService.getUserByEmail (db : Database) (email : String) : Option UserRow :=
  (db.users.filter (fun u => u.email == email && u.isDeleted == false)).head?

/-- The registration payload (`userSchema.insert` fields the service reads;
drizzle-zod defaults supply the flags). -/
structure InsertPayload where
  name : String
  email : String
  password : String
  confirmPassword : String
deriving DecidableEq

/-- `app/schema/user.schema.ts` `insertUserSchema`: email format (modelled as
containing a `@`), name of min length 2, password of min length 8 containing an
uppercase letter, a lowercase letter and a digit, and a matching
`confirmPassword`. -/
def insertUserSchemaOk (p : InsertPayload) : Bool :=
  p.email.data.any (fun c => c == '@') && decide (2 ≤ p.name.length) &&
  decide (8 ≤ p.password.length) && p.password.data.any Char.isUpper &&
  p.password.data.any Char.isLower && p.password.data.any Char.isDigit &&
  (p.confirmPassword == p.password)

/-- `AuthService.sendVerificationEmail`: look the user up (throw `NotFound` if
absent), generate a 1-day verification token, store it in `passwordToken`, and
send the email (external collaborator, modelled as succeeding). -/
def AuthService.sendVerificationEmail (db : Database) (now : Nat) (email : String) :
    Except ErrResp Database :=
  match AuthService.getUserByEmail db email with
  | none => .error (.NotFound "User not found")
  | some _ =>
    let gen := useToken.generate ("email=" ++ email ++ ";type=email-verification")
      env.JWT_SECRET_ACCESS_TOKEN .d1 now
    .ok (dbSetPasswordToken db email (some gen.token))

/-- The success payload of `AuthService.createUser`. -/
structure CreateUserOk where
  message : String
  userId : Nat
deriving DecidableEq

/-- `AuthService.createUser` (`src/middleware/authorization.ts` lines 252-289):
parse `userSchema.insert`, check `getUserByEmail` (which filters out
soft-deleted rows) and throw `BadRequest "User already exists"` on a hit; hash
the password, insert the row (unverified, subject to the `user_email_unique`
constraint), then send the verification email. -/
def AuthService.createUser (db : Database) (now : Nat) (data : InsertPayload) :
    Except ErrResp (Database × CreateUserOk) :=
  if insertUserSchemaOk data then
    match AuthService.getUserByEmail db data.email with
    | some _ => .error (.BadRequest "User already exists")
    | none =>
      let hashedPassword := hashing.hash data.password
      let row : UserRow :=
        { id := nextUserId db.users, name := data.name, email := data.email,
          password := some hashedPassword, passwordToken := none,
          isActive := true, isEmailVerified := false, isDeleted := false }
      match dbInsertUser db row with
      | .error e => .error e
      | .ok db2 =>
        match AuthService.sendVerificationEmail db2 now data.email with
        | .error e => .error e
        | .ok db3 =>
          .ok (db3, { message := "User registered successfully.", userId := row.id })
  else .error (.ValidationFailed "insertUserSchema")

/-- `AuthService.requestPasswordReset`: look the user up via `getUserByEmail`
(throw `NotFound` if absent), generate a 1-hour reset token, store it in
`passwordToken`, and send the email (external collaborator, modelled as
succeeding). -/
def AuthService.requestPasswordReset (db : Database) (now : Nat) (email : String) :
    Except ErrResp (Database × String) :=
  match AuthService.getUserByEmail db email with
  | none => .error (.NotFound "Account not found")
  | some user =>
    let gen := useToken.generate ("email=" ++ user.email ++ ";type=password-reset")
      env.JWT_SECRET_ACCESS_TOKEN .h1 now
    .ok (dbSetPasswordToken db email (some gen.token),
         "Password reset instructions sent to your email")

/-- Outcome of the `authorization` middleware: reject with a status code and
one of the pre-defined error messages, or allow and attach the decoded token
data to the request state. -/
inductive GateOutcome
  | reject (code : Nat) (message : String)
  | allow (tokenData : String)
deriving DecidableEq

/-- The `authorization` middleware (`src/middleware/authorization.ts`):
extract the token (reject 401 `no token provided` when absent or falsy), verify
it against `JWT_SECRET_ACCESS_TOKEN` (reject 401 `invalid jwt` when
`verifiedToken?.data` is null), look the session up by token (reject 401
`no valid session` when absent), else attach the token data and continue. -/
def authMiddleware (db : Database) (now : Nat) (rq : Req) : GateOutcome :=
  match useToken.extract rq with
  | none => .reject 401 "Unauthorized, no token provided"
  | some token =>
    if token.isEmptyStr then .reject 401 "Unauthorized, no token provided"
    else
      let verifiedToken := useToken.verify token env.JWT_SECRET_ACCESS_TOKEN now
      match verifiedToken.data with
      | none => .reject 401 "Unauthorized, invalid jwt"
      | some d =>
        match SessionService.getByToken db.sessions token with
        | none => .reject 401 "Unauthorized, no valid session"
        | some _ => .allow d

/-- The token the `/logout` handler reads:
`req.headers.authorization && req.headers.authorization.split(" ")[1]` — the
second part of the split whatever the scheme, undefined when there is no second
part. -/
def logoutHeaderToken : Option HeaderShape → Option TokenStr
  | some (.twoParts _ second) => some second
  | some (.manyParts _ second) => some second
  | some (.onePart _) => none
  | none => none

/-- The `POST /auth/logout` route (`src/app/controller/auth.controller.ts`
lines 61-78): the `authorization` gate runs first; on success the handler takes
the second part of the `Authorization` header and, when truthy, deletes the
matching session row, then responds 200. Returns status and resulting state. -/
def logoutRoute (db : Database) (now : Nat) (rq : Req) : Nat × Database :=
  match authMiddleware db now rq with
  | .reject code _ => (code, db)
  | .allow _ =>
    let sessions2 :=
      match logoutHeaderToken rq.authHeader with
      | some t =>
        if t.isEmptyStr then db.sessions
        else SessionService.deleteSession db.sessions t
      | none => db.sessions
    (200, { db with sessions := sessions2 })

/-- The `POST /auth/user-registration` route
(`src/app/controller/auth.controller.ts` lines 80-89): the `authorization` gate
runs first; on success `AuthService.createUser` runs and the route responds 201
(service errors keep the state unchanged and map to their error status).
Returns status and resulting state. -/
def userRegistrationRoute (db : Database) (now : Nat) (rq : Req)
    (body : InsertPayload) : Nat × Database :=
  match authMiddleware db now rq with
  | .reject code _ => (code, db)
  | .allow _ =>
    match AuthService.createUser db now body with
    | .ok (db2, _) => (201, db2)
    | .error (.NotFound _) => (404, db)
    | .error (.BadRequest _) => (400, db)
    | .error (.Forbidden _) => (403, db)
    | .error (.InternalServer _) => (500, db)
    | .error (.UniqueViolation _) => (409, db)
    | .error (.ValidationFailed _) => (400, db)

/-- The invariant of the `userSession` table: at most one session row per user
id, stated as pairwise-distinct user ids. -/
def atMostOneSessionPerUser (sessions : List SessionRow) : Prop :=
  sessions.Pairwise (fun a b => a.userId ≠ b.userId)

/-- C1: the claim states that `resetPassword` succeeds only when the stored
reset token byte-matches the provided token AND the token independently passes
signature/expiry verification. The code is wrong: `validateResetToken` tests
`tokenValidation !== null`, and `useToken.verify` never returns null, so the
verification result is ignored. At the input below the provided token
byte-matches the stored one but is expired — `useToken.verify` reports
`data = null` — yet `resetPassword` succeeds and updates the password. -/
theorem C1_expired_matching_token_resets_password :
    (useToken.verify (.signed "p" env.JWT_SECRET_ACCESS_TOKEN 0 3600 0)
        env.JWT_SECRET_ACCESS_TOKEN 7200).data = none ∧
    AuthService.validateResetToken
      { users := [{ id := 1, name := "Al", email := "a@b.c", password := some "old",
                    passwordToken := some (.signed "p" env.JWT_SECRET_ACCESS_TOKEN 0 3600 0),
                    isActive := true, isEmailVerified := false, isDeleted := false }],
        sessions := [] }
      7200 "a@b.c" (.signed "p" env.JWT_SECRET_ACCESS_TOKEN 0 3600 0) = true ∧
    AuthService.resetPassword
      { users := [{ id := 1, name := "Al", email := "a@b.c", password := some "old",
                    passwordToken := some (.signed "p" env.JWT_SECRET_ACCESS_TOKEN 0 3600 0),
                    isActive := true, isEmailVerified := false, isDeleted := false }],
        sessions := [] }
      7200 "a@b.c" "NewPass1x" (.signed "p" env.JWT_SECRET_ACCESS_TOKEN 0 3600 0)
    = .ok ({ users := [{ id := 1, name := "Al", email := "a@b.c",
                         password := some "hashed:NewPass1x", passwordToken := none,
                         isActive := true, isEmailVerified := true, isDeleted := false }],
             sessions := [] },
           { message := "Password reset successfully", email := "a@b.c" }) := by
  decide

/-- C2 counterexample: a request carrying a token in all three sources does not
yield the Authorization-header value — extraction returns the query value. -/
theorem C2_counterexample_query_wins :
    useToken.extract
      { queryToken := some (.garbage "qtok"), cookieToken := some (.garbage "ctok"),
        authHeader := some (.twoParts "Bearer" (.garbage "htok")) }
      = some (TokenStr.garbage "qtok") ∧
    TokenStr.garbage "qtok" ≠ TokenStr.garbage "htok" := by
  decide

/-- C2 (amended): extraction precedence is query parameter first, then cookie,
then Authorization header; the cookie is consulted only when the query yields
no truthy token, and the header only when both query and cookie yield none. -/
theorem C2_extract_precedence (rq : Req) :
    (tokTruthy rq.queryToken = true → useToken.extract rq = rq.queryToken) ∧
    (tokTruthy rq.queryToken = false → tokTruthy rq.cookieToken = true →
      useToken.extract rq = rq.cookieToken) ∧
    (tokTruthy rq.queryToken = false → tokTruthy rq.cookieToken = false →
      useToken.extract rq = extractFromHeader rq.authHeader) := by
  refine ⟨?_, ?_, ?_⟩
  · intro h; simp [useToken.extract, h]
  · intro h1 h2; simp [useToken.extract, h1, h2]
  · intro h1 h2; simp [useToken.extract, h1, h2]

/-- C2 witness: precedence theorem applied to a concrete request that carries
only a query token. -/
theorem C2_extract_precedence_witness :
    useToken.extract
      { queryToken := some (.garbage "qtok"), cookieToken := none, authHeader := none }
      = some (TokenStr.garbage "qtok") :=
  (C2_extract_precedence _).1 (by decide)

/-- C8 counterexample: on the empty token, `useToken.verify` returns a fifth
typed failure, `unauthorized`, outside the four cases the claim enumerates. -/
theorem C8_counterexample_empty_token :
    (useToken.verify (.garbage "") "k" 0).data = none ∧
    (useToken.verify (.garbage "") "k" 0).message = .unauthorized ∧
    ¬ ((useToken.verify (.garbage "") "k" 0).message ∈
        [VerifyMsg.expired, VerifyMsg.jwtError, VerifyMsg.notBefore,
         VerifyMsg.unknownErr]) := by
  decide

/-- C8 (amended): for every token, secret and instant, `useToken.verify` is
total and returns either the decoded claim (message `verified`) or a failure
with null data whose typed message is one of: missing-token `unauthorized`,
`expired`, `jwtError` (malformed or invalid signature), `notBefore`, or
`unknownErr`; it consults no stored state (it is a function of token, secret
and clock only). -/
theorem C8_verify_totality (token : TokenStr) (secretKey : String) (now : Nat) :
    ((useToken.verify token secretKey now).message = VerifyMsg.verified ∧
      (useToken.verify token secretKey now).data ≠ none) ∨
    ((useToken.verify token secretKey now).data = none ∧
      (useToken.verify token secretKey now).message ∈
        [VerifyMsg.unauthorized, VerifyMsg.expired, VerifyMsg.jwtError,
         VerifyMsg.notBefore, VerifyMsg.unknownErr]) := by
  unfold useToken.verify
  split
  · right; simp
  · split <;> simp

/-- C9: a token generated under one key never verifies under a different key:
the verification result carries null data. -/
theorem C9_cross_key_verify_fails (payload K Kp : String) (expires : ExpiresType)
    (now now2 : Nat) (hK : K ≠ Kp) :
    (useToken.verify (useToken.generate payload K expires now).token Kp now2).data
      = none := by
  simp [useToken.generate, useToken.verify, TokenStr.isEmptyStr, jwtVerify, hK]

/-- C9 witness: cross-key failure at concrete keys. -/
theorem C9_cross_key_verify_fails_witness :
    (useToken.verify (useToken.generate "p" "keyA" .h1 0).token "keyB" 0).data
      = none :=
  C9_cross_key_verify_fails "p" "keyA" "keyB" .h1 0 0 (by decide)

/-- C5 counterexample: login for an existing inactive user fails with
`BadRequest "Your account is not active"`, not with a forbidden error as the
claim states. -/
theorem C5_counterexample_inactive_not_forbidden :
    AuthService.userLogin
      { users := [{ id := 1, name := "Al", email := "a@b.c",
                    password := some "hashed:Passw0rdX", passwordToken := none,
                    isActive := false, isEmailVerified := true, isDeleted := false }],
        sessions := [] }
      0 "a@b.c" "Passw0rdX"
    = .error (.BadRequest "Your account is not active") ∧
    exceptIsForbidden (AuthService.userLogin
      { users := [{ id := 1, name := "Al", email := "a@b.c",
                    password := some "hashed:Passw0rdX", passwordToken := none,
                    isActive := false, isEmailVerified := true, isDeleted := false }],
        sessions := [] }
      0 "a@b.c" "Passw0rdX") = false := by
  decide

/-- C5 (amended): for schema-valid inputs, `userLogin` fails `NotFound` when no
user has the email; otherwise fails `BadRequest "Your account is not active"`
when the found user is inactive (regardless of the password); otherwise fails
`BadRequest "Invalid username or password"` when the password does not match —
the checks in exactly that order, the mismatch error being a constant message
that does not depend on the rest of the store. -/
theorem C5_login_check_order (db : Database) (now : Nat) (email pw : String)
    (hv : loginSchemaOk email pw = true) :
    ((db.users.filter (fun u => u.email == email)).head? = none →
      AuthService.userLogin db now email pw
        = .error (.NotFound "Account not found or not registered")) ∧
    (∀ u, (db.users.filter (fun v => v.email == email)).head? = some u →
      (u.isActive = false →
        AuthService.userLogin db now email pw
          = .error (.BadRequest "Your account is not active")) ∧
      (u.isActive = true → hashing.verify (u.password.getD "") pw = false →
        AuthService.userLogin db now email pw
          = .error (.BadRequest "Invalid username or password"))) := by
  refine ⟨?_, ?_⟩
  · intro h; simp [AuthService.userLogin, hv, h]
  · intro u hu
    refine ⟨?_, ?_⟩
    · intro hact; simp [AuthService.userLogin, hv, hu, hact]
    · intro hact hpw; simp [AuthService.userLogin, hv, hu, hact, hpw]

/-- C5 witness: the order theorem applied to an empty store: login fails
`NotFound`. -/
theorem C5_login_check_order_witness :
    AuthService.userLogin { users := [], sessions := [] } 0 "a@b.c" "Passw0rd"
      = .error (.NotFound "Account not found or not registered") :=
  (C5_login_check_order { users := [], sessions := [] } 0 "a@b.c" "Passw0rd"
    (by decide)).1 (by decide)

/-- C4 counterexample: registering an email that belongs only to a soft-deleted
user does not fail with bad-request — the duplicate check (`getUserByEmail`,
which filters `isDeleted = false`) passes and the insert is rejected by the
`user_email_unique` constraint instead. -/
theorem C4_counterexample_soft_deleted_duplicate :
    AuthService.createUser
      { users := [{ id := 1, name := "Al", email := "a@b.c",
                    password := some "hashed:Passw0rdX", passwordToken := none,
                    isActive := true, isEmailVerified := true, isDeleted := true }],
        sessions := [] }
      0 { name := "Bo", email := "a@b.c", password := "Passw0rdY",
          confirmPassword := "Passw0rdY" }
    = .error (.UniqueViolation "user_email_unique") ∧
    exceptIsBadRequest (AuthService.createUser
      { users := [{ id := 1, name := "Al", email := "a@b.c",
                    password := some "hashed:Passw0rdX", passwordToken := none,
                    isActive := true, isEmailVerified := true, isDeleted := true }],
        sessions := [] }
      0 { name := "Bo", email := "a@b.c", password := "Passw0rdY",
          confirmPassword := "Passw0rdY" }) = false := by
  decide

/-- C4 (amended): for a schema-valid payload whose email some existing row
already carries, registration never produces a second row with that email: when
a non-deleted user has the email, `createUser` fails `BadRequest "User already
exists"`; when only soft-deleted rows have it, the service check passes and the
insert is rejected by the `user_email_unique` constraint (surfaced as a
duplicate-entry error, not bad-request). Every failure leaves the store
unchanged. -/
theorem C4_duplicate_email_never_second_row (db : Database) (now : Nat)
    (p : InsertPayload)
    (hok : insertUserSchemaOk p = true)
    (hex : db.users.any (fun u => u.email == p.email) = true) :
    ((AuthService.getUserByEmail db p.email).isSome = true →
      AuthService.createUser db now p = .error (.BadRequest "User already exists")) ∧
    (AuthService.getUserByEmail db p.email = none →
      AuthService.createUser db now p
        = .error (.UniqueViolation "user_email_unique")) := by
  refine ⟨?_, ?_⟩
  · intro h
    match hms : AuthService.getUserByEmail db p.email with
    | some u => simp [AuthService.createUser, hok, hms]
    | none => rw [hms] at h; simp at h
  · intro h
    simp [AuthService.createUser, hok, h, dbInsertUser, hex]

/-- C4 witness: the amended theorem applied to a store holding a non-deleted
user with the email: registration fails `BadRequest`. -/
theorem C4_duplicate_email_witness :
    AuthService.createUser
      { users := [{ id := 1, name := "Al", email := "a@b.c",
                    password := some "hashed:Passw0rdX", passwordToken := none,
                    isActive := true, isEmailVerified := true, isDeleted := false }],
        sessions := [] }
      0 { name := "Bo", email := "a@b.c", password := "Passw0rdY",
          confirmPassword := "Passw0rdY" }
    = .error (.BadRequest "User already exists") :=
  (C4_duplicate_email_never_second_row _ 0 _ (by decide) (by decide)).1 (by decide)

/-- C10: the user-registration route runs the `authorization` gate first: a
request whose token is missing (absent or empty), fails verification, or has no
matching session row is answered 401 with the store unchanged — no user is
created. -/
theorem C10_registration_gate (db : Database) (now : Nat) (rq : Req)
    (body : InsertPayload) :
    (useToken.extract rq = none → userRegistrationRoute db now rq body = (401, db)) ∧
    (∀ t, useToken.extract rq = some t → t.isEmptyStr = true →
      userRegistrationRoute db now rq body = (401, db)) ∧
    (∀ t, useToken.extract rq = some t → t.isEmptyStr = false →
      (useToken.verify t env.JWT_SECRET_ACCESS_TOKEN now).data = none →
      userRegistrationRoute db now rq body = (401, db)) ∧
    (∀ t d, useToken.extract rq = some t → t.isEmptyStr = false →
      (useToken.verify t env.JWT_SECRET_ACCESS_TOKEN now).data = some d →
      SessionService.getByToken db.sessions t = none →
      userRegistrationRoute db now rq body = (401, db)) := by
  refine ⟨?_, ?_, ?_, ?_⟩
  · intro h; simp [userRegistrationRoute, authMiddleware, h]
  · intro t h he; simp [userRegistrationRoute, authMiddleware, h, he]
  · intro t h he hvd; simp [userRegistrationRoute, authMiddleware, h, he, hvd]
  · intro t d h he hvd hs
    simp [userRegistrationRoute, authMiddleware, h, he, hvd, hs]

/-- C10 witness: the gate theorem applied to a request with no token anywhere:
registration is answered 401 and the store is unchanged. -/
theorem C10_registration_gate_witness :
    userRegistrationRoute { users := [], sessions := [] } 0
      { queryToken := none, cookieToken := none, authHeader := none }
      { name := "Bo", email := "a@b.c", password := "Passw0rdY",
        confirmPassword := "Passw0rdY" }
    = (401, { users := [], sessions := [] }) :=
  (C10_registration_gate { users := [], sessions := [] } 0
    { queryToken := none, cookieToken := none, authHeader := none }
    { name := "Bo", email := "a@b.c", password := "Passw0rdY",
      confirmPassword := "Passw0rdY" }).1 (by decide)

/-- C3 counterexample: a cryptographically valid, previously-valid token whose
session row is gone does not reach the logout handler — the gate answers 401,
not 200. -/
theorem C3_counterexample_gate_rejects :
    logoutRoute { users := [], sessions := [] } 100
      { queryToken := none, cookieToken := none,
        authHeader := some (.twoParts "Bearer"
          (.signed "p" env.JWT_SECRET_ACCESS_TOKEN 0 86400 0)) }
    = (401, { users := [], sessions := [] }) := by
  decide

/-- C3 (amended): calling logout through the gate with a token that verifies
but has no matching session row is answered 401 (no valid session) with the
store unchanged — the handler never runs; and the session-table delete by token
is a no-op when no row matches. -/
theorem C3_logout_deleted_session (db : Database) (now : Nat) (rq : Req)
    (t : TokenStr)
    (hx : useToken.extract rq = some t)
    (hne : t.isEmptyStr = false)
    (hv : (useToken.verify t env.JWT_SECRET_ACCESS_TOKEN now).data.isSome = true)
    (hs : SessionService.getByToken db.sessions t = none) :
    logoutRoute db now rq = (401, db) ∧
    SessionService.deleteSession db.sessions t = db.sessions := by
  refine ⟨?_, ?_⟩
  · obtain ⟨d, hd⟩ := Option.isSome_iff_exists.mp hv
    simp [logoutRoute, authMiddleware, hx, hne, hd, hs]
  · have hnil : db.sessions.filter (fun s => s.token == t) = [] :=
      List.head?_eq_none_iff.mp hs
    have hall : ∀ s ∈ db.sessions, ¬ ((fun s => s.token == t) s = true) :=
      List.filter_eq_nil_iff.mp hnil
    unfold SessionService.deleteSession
    rw [List.filter_eq_self]
    intro s hsm
    simpa using hall s hsm

/-- C3 witness: the amended theorem at a concrete valid token and an empty
session table. -/
theorem C3_logout_deleted_session_witness :
    logoutRoute { users := [], sessions := [] } 100
      { queryToken := none, cookieToken := none,
        authHeader := some (.twoParts "JWT"
          (.signed "p" env.JWT_SECRET_ACCESS_TOKEN 0 86400 0)) }
    = (401, { users := [], sessions := [] }) ∧
    SessionService.deleteSession ([] : List SessionRow)
      (.signed "p" env.JWT_SECRET_ACCESS_TOKEN 0 86400 0) = [] :=
  C3_logout_deleted_session { users := [], sessions := [] } 100
    { queryToken := none, cookieToken := none,
      authHeader := some (.twoParts "JWT"
        (.signed "p" env.JWT_SECRET_ACCESS_TOKEN 0 86400 0)) }
    (.signed "p" env.JWT_SECRET_ACCESS_TOKEN 0 86400 0)
    (by decide) (by decide) (by decide) (by decide)

/-- Updating the session rows of a user id does not change the user id of any row. -/
theorem sessionUpdate_userId (uid : Nat) (tok : TokenStr) (s : SessionRow) :
    ((if s.userId == uid then { s with userId := uid, token := tok } else s) :
      SessionRow).userId = s.userId := by
  by_cases hs : (s.userId == uid) = true
  · simp only [hs, if_pos]
    exact (eq_of_beq hs).symm
  · simp [hs]

/-- C6: at most one session row per user id (pairwise-distinct user ids) is
preserved by every login `createOrUpdateSession` and every logout
`deleteSession`. -/
theorem C6_session_invariant_preserved (sessions : List SessionRow)
    (h : atMostOneSessionPerUser sessions) (uid : Nat) (tok tok2 : TokenStr) :
    atMostOneSessionPerUser (SessionService.createOrUpdateSession sessions uid tok) ∧
    atMostOneSessionPerUser (SessionService.deleteSession sessions tok2) := by
  refine ⟨?_, ?_⟩
  · unfold SessionService.createOrUpdateSession
    cases hh : (sessions.filter (fun s => s.userId == uid)).head? with
    | some s =>
      unfold atMostOneSessionPerUser at h ⊢
      rw [List.pairwise_map]
      refine h.imp ?_
      intro a b hab
      rw [sessionUpdate_userId, sessionUpdate_userId]
      exact hab
    | none =>
      have hnil : sessions.filter (fun s => s.userId == uid) = [] :=
        List.head?_eq_none_iff.mp hh
      have hall : ∀ s ∈ sessions, ¬ ((fun s => s.userId == uid) s = true) :=
        List.filter_eq_nil_iff.mp hnil
      unfold atMostOneSessionPerUser at h ⊢
      rw [List.pairwise_append]
      refine ⟨h, List.pairwise_singleton _ _, ?_⟩
      intro a ha b hb
      have hb2 : b = { id := nextSessionId sessions, userId := uid, token := tok } := by
        simpa using hb
      subst hb2
      intro hEq
      exact hall a ha (by simpa using hEq)
  · unfold SessionService.deleteSession
    exact List.Pairwise.sublist (List.filter_sublist _) h

/-- C6 witness: the preservation theorem at a concrete one-row table. -/
theorem C6_session_invariant_preserved_witness :
    atMostOneSessionPerUser
      (SessionService.createOrUpdateSession [⟨1, 5, .garbage "t"⟩] 7 (.garbage "t2")) ∧
    atMostOneSessionPerUser
      (SessionService.deleteSession [⟨1, 5, .garbage "t"⟩] (.garbage "t")) :=
  C6_session_invariant_preserved [⟨1, 5, .garbage "t"⟩]
    (List.pairwise_singleton _ _) 7 (.garbage "t2") (.garbage "t")

/-- After the reset-password update, every row carrying the email has a cleared
password token and a set email-verified flag. -/
theorem resetMap_clears (users : List UserRow) (email : String) (pwh : String) :
    ∀ u ∈ users.map (fun u =>
      if u.email == email then
        { u with password := some pwh, isEmailVerified := true, passwordToken := none }
      else u), u.email = email → u.passwordToken = none ∧ u.isEmailVerified = true := by
  intro u hu he
  rcases List.mem_map.mp hu with ⟨v, hv, rfl⟩
  by_cases hveq : (v.email == email) = true
  · simp [hveq]
  · exfalso
    rw [if_neg hveq] at he
    exact hveq (by simpa using he)

/-- A store in which every row carrying the email has a cleared password token
makes `validateResetToken` fail for that email, whatever the provided token. -/
theorem validateResetToken_false_of_cleared (db2 : Database) (now2 : Nat)
    (email : String) (token : TokenStr)
    (hcl : ∀ u ∈ db2.users, u.email = email → u.passwordToken = none) :
    AuthService.validateResetToken db2 now2 email token = false := by
  unfold AuthService.validateResetToken
  cases hh : (db2.users.filter (fun u => u.email == email)).head? with
  | none => rfl
  | some u =>
    have humem : u ∈ db2.users.filter (fun u => u.email == email) :=
      List.mem_of_mem_head? (Option.mem_def.mpr hh)
    rcases List.mem_filter.mp humem with ⟨hmem, hpe⟩
    have hpt : u.passwordToken = none := hcl u hmem (by simpa using hpe)
    simp [hpt]

/-- C7: a successful `resetPassword` clears the stored reset token and sets the
email-verified flag on every row with that email, so a repeat attempt with the
same token (at any later instant, with any new password) fails with
`BadRequest "Invalid or expired token"`. -/
theorem C7_reset_clears_token (db : Database) (now now2 : Nat)
    (email pw pw2 : String) (token : TokenStr) (db2 : Database) (r : ResetOk)
    (h : AuthService.resetPassword db now email pw token = .ok (db2, r)) :
    (∀ u ∈ db2.users, u.email = email →
      u.passwordToken = none ∧ u.isEmailVerified = true) ∧
    AuthService.resetPassword db2 now2 email pw2 token
      = .error (.BadRequest "Invalid or expired token") := by
  have hdb2 : db2.users = db.users.map (fun u =>
      if u.email == email then
        { u with password := some (hashing.hash pw), isEmailVerified := true,
                 passwordToken := none }
      else u) := by
    unfold AuthService.resetPassword at h
    cases hv : AuthService.validateResetToken db now email token with
    | false => rw [hv] at h; simp at h
    | true =>
      rw [hv] at h
      simp only [if_true, Except.ok.injEq, Prod.mk.injEq] at h
      rw [← h.1]
  have hcl := resetMap_clears db.users email (hashing.hash pw)
  rw [← hdb2] at hcl
  refine ⟨hcl, ?_⟩
  have hvf : AuthService.validateResetToken db2 now2 email token = false :=
    validateResetToken_false_of_cleared db2 now2 email token
      (fun u hu he => (hcl u hu he).1)
  unfold AuthService.resetPassword
  rw [hvf]
  simp

/-- C7 witness: a concrete successful reset followed by a repeat attempt with
the same token, which fails. -/
theorem C7_reset_clears_token_witness :
    AuthService.resetPassword
      { users := [{ id := 1, name := "Al", email := "a@b.c",
                    password := some "hashed:NewPass1x", passwordToken := none,
                    isActive := true, isEmailVerified := true, isDeleted := false }],
        sessions := [] }
      5 "a@b.c" "Other2Pass" (.signed "p" env.JWT_SECRET_ACCESS_TOKEN 0 999999 0)
    = .error (.BadRequest "Invalid or expired token") :=
  (C7_reset_clears_token
    { users := [{ id := 1, name := "Al", email := "a@b.c",
                  password := some "old", 
                  passwordToken := some (.signed "p" env.JWT_SECRET_ACCESS_TOKEN 0 999999 0),
                  isActive := true, isEmailVerified := false, isDeleted := false }],
      sessions := [] }
    0 5 "a@b.c" "NewPass1x" "Other2Pass"
    (.signed "p" env.JWT_SECRET_ACCESS_TOKEN 0 999999 0)
    { users := [{ id := 1, name := "Al", email := "a@b.c",
                  password := some "hashed:NewPass1x", passwordToken := none,
                  isActive := true, isEmailVerified := true, isDeleted := false }],
      sessions := [] }
    { message := "Password reset successfully", email := "a@b.c" }
    (by decide)).2
